import Mathlib

/-!
# Verification of the pokerplan planning-poker bot core

Shallow embedding of `src/pokerplan.py`: the SQLite-backed store (tables
`sessions`, `session_members`, `votes` with their primary keys and
`INSERT OR IGNORE` / `INSERT OR REPLACE` semantics), the results
aggregation `compose_and_broadcast_results`, and the callback handlers
`cb_vote`, `cb_reveal`, `cb_revote`, `cb_members`, `cb_join` together with
the commands `cmd_new_session` and `cmd_close_session`.

Conventions of the embedding:
* Each SQL table is a list of rows in rowid (insertion) order; a SELECT
  without ORDER BY returns rows in that order.
* `INSERT OR REPLACE` (used by `set_vote`) deletes every row that
  conflicts on the primary key and appends the fresh row at the end
  (the replacement receives a new rowid in SQLite).
* `INSERT OR IGNORE` (used by `add_member`) is a no-op when a row with
  the same primary key exists, otherwise appends.
* A plain `INSERT` on a duplicate primary key raises, aborting the
  transaction: the store is left unchanged (used by `create_session`).
* Telegram user ids are naturals; `username`/`full_name` are strings
  with `""` standing for a missing value exactly as the Python code
  coalesces them with `or ""`.
* Timestamps (`now_iso()`) are opaque strings passed in as parameters.
* Python floats are modelled as rationals; `float(val)` is modelled on
  the strings that occur as card tokens (non-negative integer literals),
  all other strings being treated as unparseable, which agrees with
  `float` on every card token.
* Message sending is external I/O; a handler's outcome records which
  message/branch was taken and whether a results broadcast happened.
-/

/-- Constant `VOTE_OPTIONS` from pokerplan.py line 37: the fixed ordered card token set. -/
def VOTE_OPTIONS : List String :=
  ["0", "½", "1", "2", "3", "5", "8", "13", "20", "40", "100", "?"]

/-- A Telegram user as the handlers see it (`types.User`): id, username,
full name.  `""` models a missing username/full name. -/
structure User where
  id : Nat
  username : String
  full_name : String
deriving DecidableEq, Repr

/-- A row of the `sessions` table (primary key `id`). -/
structure SessionRow where
  id : String
  creator_id : Nat
  creator_name : String
  title : String
  description : String
  created_at : String
  status : String
deriving DecidableEq, Repr

/-- A row of the `session_members` table (primary key `(session_id, user_id)`). -/
structure MemberRow where
  session_id : String
  user_id : Nat
  username : String
  first_name : String
  joined_at : String
deriving DecidableEq, Repr

/-- A row of the `votes` table (primary key `(session_id, user_id)`). -/
structure VoteRow where
  session_id : String
  user_id : Nat
  value : String
  voted_at : String
deriving DecidableEq, Repr

/-- The whole database: the three tables, each in rowid order. -/
structure Store where
  sessions : List SessionRow
  members : List MemberRow
  votes : List VoteRow
deriving DecidableEq, Repr

/-- Function `create_session` (line 88): INSERT a fresh OPEN session.  A duplicate
primary key would raise and abort the transaction, leaving the store
unchanged. -/
def create_session (st : Store) (sid : String) (creator : User)
    (title description now : String) : Store :=
  if st.sessions.any (fun s => s.id == sid) then st
  else { st with sessions := st.sessions ++
          [⟨sid, creator.id, creator.full_name, title, description, now, "open"⟩] }

/-- Function `add_member` (line 98): `INSERT OR IGNORE` keyed by `(session_id, user_id)`. -/
def add_member (st : Store) (sid : String) (u : User) (now : String) : Store :=
  if st.members.any (fun m => m.session_id == sid && m.user_id == u.id) then st
  else { st with members := st.members ++ [⟨sid, u.id, u.username, u.full_name, now⟩] }

/-- Function `set_vote` (line 106): `INSERT OR REPLACE` keyed by `(session_id, user_id)`:
conflicting rows are deleted and the fresh row appended. -/
def set_vote (st : Store) (sid : String) (u : User) (value now : String) : Store :=
  { st with votes :=
      st.votes.filter (fun v => !(v.session_id == sid && v.user_id == u.id)) ++
      [⟨sid, u.id, value, now⟩] }

/-- Function `get_session` (line 113): SELECT the session row by primary key. -/
def get_session (st : Store) (sid : String) : Option SessionRow :=
  st.sessions.find? (fun s => s.id == sid)

/-- Function `get_members` (line 122): SELECT all membership rows of a session, in
rowid (join) order. -/
def get_members (st : Store) (sid : String) : List MemberRow :=
  st.members.filter (fun m => m.session_id == sid)

/-- Function `get_votes` (line 129): SELECT all vote rows of a session, in rowid order. -/
def get_votes (st : Store) (sid : String) : List VoteRow :=
  st.votes.filter (fun v => v.session_id == sid)

/-- Function `clear_votes` (line 136): DELETE all vote rows of a session. -/
def clear_votes (st : Store) (sid : String) : Store :=
  { st with votes := st.votes.filter (fun v => !(v.session_id == sid)) }

/-- Function `set_session_status` (line 141): UPDATE the status of a session. -/
def set_session_status (st : Store) (sid status : String) : Store :=
  { st with sessions :=
      st.sessions.map (fun s => if s.id == sid then { s with status := status } else s) }

/-- The stored vote value of `(sid, uid)`, if any (first matching row). -/
def lookupVote (st : Store) (sid : String) (uid : Nat) : Option String :=
  (st.votes.find? (fun v => v.session_id == sid && v.user_id == uid)).map (fun v => v.value)

/-- Whether `(sid, uid)` has a membership row. -/
def memberExists (st : Store) (sid : String) (uid : Nat) : Bool :=
  st.members.any (fun m => m.session_id == sid && m.user_id == uid)

/-! ## Results aggregation (`compose_and_broadcast_results`, lines 147-213) -/

/-- Parse a list of decimal digit characters as a natural number; `none`
when the list holds a non-digit. -/
def digitsToNat? (cs : List Char) : Option Nat :=
  cs.foldl (fun acc c =>
    match acc with
    | none => none
    | some n => if c.isDigit then some (n * 10 + (c.toNat - 48)) else none) (some 0)

/-- Model of Python `float(val)` on the strings the card-token domain can
produce: a non-empty string of decimal digits parses to its value, every
other string raises (`none`).  This agrees with `float` on every card
token; the handler swallows parse failures (`except Exception: pass`). -/
def pyfloat? (s : String) : Option Rat :=
  if s.data.isEmpty then none
  else (digitsToNat? s.data).map (fun n => (n : Rat))

/-- The numeric sequence of lines 157-169: `?` is skipped, `½` contributes
`0.5`, anything else contributes `float(val)` when it parses and is
silently skipped when it does not. -/
def numericValues (vals : List String) : List Rat :=
  vals.filterMap (fun val =>
    if val == "?" then none
    else if val == "½" then some ((1 : Rat)/2)
    else pyfloat? val)

/-- Model of `statistics.mean`: arithmetic mean (only used on non-empty input). -/
def listMean (l : List Rat) : Rat := l.sum / l.length

/-- Stable ascending insertion used to model Python's `sorted`. -/
def insertAsc (x : Rat) : List Rat → List Rat
  | [] => [x]
  | y :: ys => if x ≤ y then x :: y :: ys else y :: insertAsc x ys

/-- Ascending sort (model of Python `sorted` inside `statistics.median`). -/
def sortAsc (l : List Rat) : List Rat := l.foldr insertAsc []

/-- Model of `statistics.median`: sort ascending; exact middle for odd length,
average of the two middle elements for even length (only used on
non-empty input). -/
def listMedian (l : List Rat) : Rat :=
  let s := sortAsc l
  let n := s.length
  if n % 2 = 1 then s.getD (n / 2) 0
  else (s.getD (n / 2 - 1) 0 + s.getD (n / 2) 0) / 2

/-- Round to the nearest integer, ties to even: the rounding a Python
`f"{x:.2f}"` format applies (on the exactly representable ties). -/
def roundHalfEven (q : Rat) : Int :=
  let f := ⌊q⌋
  let frac := q - f
  if frac < 1/2 then f
  else if 1/2 < frac then f + 1
  else if f % 2 = 0 then f else f + 1

/-- The 2-decimal-place display rounding of `f"{mean:.2f}"` (line 182). -/
def roundTo2 (q : Rat) : Rat := (roundHalfEven (q * 100) : Rat) / 100

/-- Histogram block of lines 156-175: count every stored value, then emit
one `(token, count)` line per `VOTE_OPTIONS` entry that is present, in
the fixed `VOTE_OPTIONS` order. -/
def histogramLines (vals : List String) : List (String × Nat) :=
  VOTE_OPTIONS.filterMap (fun opt =>
    if 0 < vals.count opt then some (opt, vals.count opt) else none)

/-- Non-voter block of lines 192-198: members whose `user_id` is not among
the voters, in membership rowid (join) order. -/
def not_voted (members : List MemberRow) (votes : List VoteRow) : List MemberRow :=
  let voted_ids := votes.map (fun v => v.user_id)
  members.filter (fun m => !(voted_ids.contains m.user_id))

/-- The content of the results message (lines 156-200), as structured data
instead of rendered text: the histogram lines, the total, the optional
mean/median lines (present exactly when the numeric sequence is
non-empty), and the non-voter roster. -/
structure Report where
  histogram : List (String × Nat)
  total : Nat
  mean : Option Rat
  median : Option Rat
  non_voters : List MemberRow
deriving DecidableEq, Repr

/-- The pure aggregation of `compose_and_broadcast_results` given the
fetched members and votes. -/
def compose_results (members : List MemberRow) (votes : List VoteRow) : Report :=
  let vals := votes.map (fun v => v.value)
  let nums := numericValues vals
  { histogram := histogramLines vals
    total := votes.length
    mean := if nums.isEmpty then none else some (roundTo2 (listMean nums))
    median := if nums.isEmpty then none else some (listMedian nums)
    non_voters := not_voted members votes }

/-- Function `compose_and_broadcast_results` (line 147): `none` when the session is
missing or no votes exist (nothing broadcast); otherwise the report is
composed and broadcast best-effort to every member, and returned. -/
def compose_and_broadcast_results (st : Store) (sid : String) : Option Report :=
  match get_session st sid with
  | none => none
  | some _ =>
    let votes := get_votes st sid
    let members := get_members st sid
    if votes.isEmpty then none
    else some (compose_results members votes)

/-! ## Callback handlers and commands -/

/-- Outcome of `cb_vote`: which message branch ran, and for a saved vote
whether the auto-reveal broadcast results. -/
inductive VoteOutcome
  | notFound
  | closed
  | saved (broadcast : Bool)
deriving DecidableEq, Repr

/-- Handler `cb_vote` (lines 330-375): look the session up, refuse when missing or
not open, otherwise save the vote unconditionally (no validation of
`value`), then run the auto-reveal check: with the stale session row
still "open", broadcast whenever the member list is non-empty and the
number of distinct voter ids equals the number of member rows. -/
def cb_vote (st : Store) (sid : String) (u : User) (value now : String) :
    Store × VoteOutcome :=
  match get_session st sid with
  | none => (st, .notFound)
  | some session =>
    if session.status != "open" then (st, .closed)
    else
      let st1 := set_vote st sid u value now
      let broadcast :=
        if session.status == "open" then
          let members := get_members st1 sid
          let votes := get_votes st1 sid
          let unique_voters := (votes.map (fun v => v.user_id)).dedup
          if !members.isEmpty && unique_voters.length == members.length then
            (compose_and_broadcast_results st1 sid).isSome
          else false
        else false
      (st1, .saved broadcast)

/-- Outcome of `cb_reveal`. -/
inductive RevealOutcome
  | notFound
  | forbidden
  | noVotes
  | revealed (r : Report)
deriving DecidableEq, Repr

/-- Handler `cb_reveal` (lines 377-394): only the creator may reveal; with no
votes the reply is "no votes yet"; otherwise the report is broadcast.
No store mutation in any branch. -/
def cb_reveal (st : Store) (sid : String) (u : User) : Store × RevealOutcome :=
  match get_session st sid with
  | none => (st, .notFound)
  | some session =>
    if u.id != session.creator_id then (st, .forbidden)
    else
      match compose_and_broadcast_results st sid with
      | none => (st, .noVotes)
      | some r => (st, .revealed r)

/-- Outcome of `cb_join`. -/
inductive JoinOutcome
  | notFound
  | closed
  | joined
deriving DecidableEq, Repr

/-- Handler `cb_join` (lines 305-328): refuse when missing or not open, otherwise
register membership idempotently. -/
def cb_join (st : Store) (sid : String) (u : User) (now : String) :
    Store × JoinOutcome :=
  match get_session st sid with
  | none => (st, .notFound)
  | some session =>
    if session.status != "open" then (st, .closed)
    else (add_member st sid u now, .joined)

/-- Outcome of `cb_revote`. -/
inductive RevoteOutcome
  | notFound
  | forbidden
  | reset
deriving DecidableEq, Repr

/-- Handler `cb_revote` (lines 396-415): only the creator may reset; deletes all
votes of the session, membership untouched. -/
def cb_revote (st : Store) (sid : String) (u : User) : Store × RevoteOutcome :=
  match get_session st sid with
  | none => (st, .notFound)
  | some session =>
    if u.id != session.creator_id then (st, .forbidden)
    else (clear_votes st sid, .reset)

/-- Outcome of `cb_members`. -/
inductive MembersOutcome
  | notFound
  | notActive
  | forbidden
  | nobody
  | roster (ms : List MemberRow)
deriving DecidableEq, Repr

/-- Handler `cb_members` (lines 417-443): the session must exist, the
not-active check runs before the creator check, and the roster is only
shown to the creator of an open session. -/
def cb_members (st : Store) (sid : String) (u : User) : MembersOutcome :=
  match get_session st sid with
  | none => .notFound
  | some session =>
    if session.status != "open" then .notActive
    else if u.id != session.creator_id then .forbidden
    else
      let ms := get_members st sid
      if ms.isEmpty then .nobody else .roster ms

/-- Command `cmd_new_session` (lines 273-287): create the OPEN session (fresh id
`sid` supplied by `make_session_id`) and auto-admit the creator. -/
def cmd_new_session (st : Store) (sid : String) (creator : User)
    (title now : String) : Store :=
  add_member (create_session st sid creator title "" now) sid creator now

/-- Outcome of `cmd_close_session`. -/
inductive CloseOutcome
  | notFound
  | forbidden
  | closedOk
deriving DecidableEq, Repr

/-- Command `cmd_close_session` (lines 500-515): only the creator may close; sets
the status to "closed". -/
def cmd_close_session (st : Store) (sid : String) (u : User) :
    Store × CloseOutcome :=
  match get_session st sid with
  | none => (st, .notFound)
  | some session =>
    if u.id != session.creator_id then (st, .forbidden)
    else (set_session_status st sid "closed", .closedOk)

/-! ## Operations and the store invariant -/

/-- One store-touching operation of the bot. -/
inductive Op
  | newSession (sid : String) (creator : User) (title now : String)
  | join (sid : String) (u : User) (now : String)
  | vote (sid : String) (u : User) (value now : String)
  | reveal (sid : String) (u : User)
  | revote (sid : String) (u : User)
  | close (sid : String) (u : User)
deriving DecidableEq, Repr

/-- The store after running one operation. -/
def step (st : Store) : Op → Store
  | .newSession sid c title now => cmd_new_session st sid c title now
  | .join sid u now => (cb_join st sid u now).1
  | .vote sid u value now => (cb_vote st sid u value now).1
  | .reveal sid u => (cb_reveal st sid u).1
  | .revote sid u => (cb_revote st sid u).1
  | .close sid u => (cmd_close_session st sid u).1

/-- The primary-key uniqueness invariant of the three tables: session ids
are pairwise distinct, and `(session_id, user_id)` is a key of both the
membership and the vote table. -/
def Store.WF (st : Store) : Prop :=
  st.sessions.Pairwise (fun a b => a.id ≠ b.id) ∧
  st.members.Pairwise (fun a b => a.session_id ≠ b.session_id ∨ a.user_id ≠ b.user_id) ∧
  st.votes.Pairwise (fun a b => a.session_id ≠ b.session_id ∨ a.user_id ≠ b.user_id)

instance (st : Store) : Decidable st.WF := by
  unfold Store.WF
  infer_instance

/-! ## Helper lemmas -/

/-- Running `set_vote` leaves the session table untouched. -/
theorem get_session_set_vote (st : Store) (sid : String) (u : User)
    (value now sid' : String) :
    get_session (set_vote st sid u value now) sid' = get_session st sid' := rfl

/-- Running `set_vote` leaves the membership table untouched. -/
theorem get_members_set_vote (st : Store) (sid : String) (u : User)
    (value now sid' : String) :
    get_members (set_vote st sid u value now) sid' = get_members st sid' := rfl

/-- After `set_vote`, the votes of the session are the previous ones with
the voter's old rows removed, followed by the fresh row. -/
theorem get_votes_set_vote_self (st : Store) (sid : String) (u : User)
    (value now : String) :
    get_votes (set_vote st sid u value now) sid =
      (get_votes st sid).filter (fun v => !(v.user_id == u.id)) ++
      [⟨sid, u.id, value, now⟩] := by
  unfold get_votes set_vote
  simp only [List.filter_append, List.filter_filter]
  have h2 : [VoteRow.mk sid u.id value now].filter (fun v => v.session_id == sid)
      = [⟨sid, u.id, value, now⟩] := by simp
  rw [h2]
  congr 1
  apply List.filter_congr
  intro v _
  cases hs : (v.session_id == sid) <;> cases hu : (v.user_id == u.id) <;> simp [hs, hu]

/-- After `set_vote`, the session has at least one vote. -/
theorem get_votes_set_vote_ne_nil (st : Store) (sid : String) (u : User)
    (value now : String) :
    get_votes (set_vote st sid u value now) sid ≠ [] := by
  rw [get_votes_set_vote_self]
  simp

/-- Evaluating `find?` at the fresh row's key after removing the key and appending. -/
theorem find?_filter_not_append {α : Type} (l : List α) (p : α → Bool) (a : α)
    (h : p a = true) :
    ((l.filter (fun x => !(p x))) ++ [a]).find? p = some a := by
  induction l with
  | nil => simp [List.find?, h]
  | cons x xs ih =>
    by_cases hx : p x
    · simpa [List.filter_cons, hx] using ih
    · simpa [List.filter_cons, hx, List.find?, hx] using ih

/-- The saved vote is retrievable: last write wins. -/
theorem lookupVote_set_vote (st : Store) (sid : String) (u : User)
    (value now : String) :
    lookupVote (set_vote st sid u value now) sid u.id = some value := by
  unfold lookupVote set_vote
  simp only
  rw [find?_filter_not_append]
  · rfl
  · simp

/-! ## C8: SubmitVote on a CLOSED session -/

/-- C8: For every SubmitVote on an existing session whose status is
CLOSED, the operation fails with the typed Closed result and the stored
votes are unchanged (no vote record created, overwritten, or deleted):
`cb_vote` returns the store untouched together with the `closed` outcome. -/
theorem submitVote_closed_rejected (st : Store) (sid : String) (u : User)
    (value now : String) (sess : SessionRow)
    (hs : get_session st sid = some sess) (hcl : sess.status = "closed") :
    cb_vote st sid u value now = (st, VoteOutcome.closed) := by
  unfold cb_vote
  rw [hs]
  simp [hcl]

/-- Witness for C8 at a concrete closed session. -/
theorem submitVote_closed_rejected_witness :
    cb_vote ⟨[⟨"s", 10, "C", "T", "", "d", "closed"⟩], [], []⟩
        "s" ⟨2, "u", "U"⟩ "5" "t1"
      = (⟨[⟨"s", 10, "C", "T", "", "d", "closed"⟩], [], []⟩, VoteOutcome.closed) :=
  submitVote_closed_rejected ⟨[⟨"s", 10, "C", "T", "", "d", "closed"⟩], [], []⟩
    "s" ⟨2, "u", "U"⟩ "5" "t1" ⟨"s", 10, "C", "T", "", "d", "closed"⟩
    (by decide) rfl

/-! ## C9: RevealResults authorization and NoVotes -/

/-- C9: RevealResults on an existing session fails with Forbidden for
every requester whose id differs from the session's creatorId, fails
with NoVotes when the requester is the creator and zero votes exist,
and in every case (both failures and success) leaves the store — hence
the session status — unchanged. -/
theorem reveal_forbidden_novotes (st : Store) (sid : String) (u : User)
    (sess : SessionRow) (hs : get_session st sid = some sess) :
    (cb_reveal st sid u).1 = st ∧
    (u.id ≠ sess.creator_id → (cb_reveal st sid u).2 = RevealOutcome.forbidden) ∧
    (u.id = sess.creator_id → get_votes st sid = [] →
      (cb_reveal st sid u).2 = RevealOutcome.noVotes) := by
  unfold cb_reveal
  rw [hs]
  refine ⟨?_, ?_, ?_⟩
  · by_cases h : u.id = sess.creator_id
    · simp only [h]
      cases hr : compose_and_broadcast_results st sid <;> simp [hr]
    · simp [h]
  · intro h
    simp [h]
  · intro h hv
    have hcomp : compose_and_broadcast_results st sid = none := by
      unfold compose_and_broadcast_results
      rw [hs, hv]
      rfl
    simp [h, hcomp]

/-- Witness for C9: non-creator requester and creator with zero votes on
a concrete session. -/
theorem reveal_forbidden_novotes_witness :
    ((cb_reveal ⟨[⟨"s", 10, "C", "T", "", "d", "open"⟩], [], []⟩ "s" ⟨2, "u", "U"⟩).1
        = ⟨[⟨"s", 10, "C", "T", "", "d", "open"⟩], [], []⟩ ∧
      (cb_reveal ⟨[⟨"s", 10, "C", "T", "", "d", "open"⟩], [], []⟩ "s" ⟨2, "u", "U"⟩).2
        = RevealOutcome.forbidden) ∧
    (cb_reveal ⟨[⟨"s", 10, "C", "T", "", "d", "open"⟩], [], []⟩ "s" ⟨10, "c", "C"⟩).2
        = RevealOutcome.noVotes := by
  have h1 := reveal_forbidden_novotes ⟨[⟨"s", 10, "C", "T", "", "d", "open"⟩], [], []⟩
    "s" ⟨2, "u", "U"⟩ ⟨"s", 10, "C", "T", "", "d", "open"⟩ (by decide)
  have h2 := reveal_forbidden_novotes ⟨[⟨"s", 10, "C", "T", "", "d", "open"⟩], [], []⟩
    "s" ⟨10, "c", "C"⟩ ⟨"s", 10, "C", "T", "", "d", "open"⟩ (by decide)
  exact ⟨⟨h1.1, h1.2.1 (by decide)⟩, h2.2.2 rfl (by decide)⟩

/-! ## C10: roster of a CLOSED session is unreachable -/

/-- C10: For every session whose status is CLOSED, `cb_members` answers
"not active" for every requester — including the creator — because the
not-active check runs before the creator check. -/
theorem members_closed_refused (st : Store) (sid : String) (u : User)
    (sess : SessionRow) (hs : get_session st sid = some sess)
    (hcl : sess.status = "closed") :
    cb_members st sid u = MembersOutcome.notActive := by
  unfold cb_members
  rw [hs]
  simp [hcl]

/-- Witness for C10: the creator of a concrete closed session (with a
member on file) is refused the roster. -/
theorem members_closed_refused_witness :
    cb_members ⟨[⟨"s", 10, "C", "T", "", "d", "closed"⟩],
                [⟨"s", 10, "cu", "C", "j1"⟩], []⟩ "s" ⟨10, "cu", "C"⟩
      = MembersOutcome.notActive :=
  members_closed_refused ⟨[⟨"s", 10, "C", "T", "", "d", "closed"⟩],
      [⟨"s", 10, "cu", "C", "j1"⟩], []⟩ "s" ⟨10, "cu", "C"⟩
    ⟨"s", 10, "C", "T", "", "d", "closed"⟩ (by decide) rfl

/-! ## C1: no InvalidValue check exists -/

/-- C1 counterexample: on a concrete OPEN session with two members, the
non-token value "999" is not rejected: the vote is saved (outcome
`saved`, no failure) and a vote record holding "999" is created, so the
claim "fails with InvalidValue and no vote record is created" is false. -/
theorem invalid_value_accepted_counterexample :
    "999" ∉ VOTE_OPTIONS ∧
    (cb_vote ⟨[⟨"s", 10, "C", "T", "", "d", "open"⟩],
              [⟨"s", 10, "cu", "C", "j1"⟩, ⟨"s", 1, "au", "A", "j2"⟩], []⟩
        "s" ⟨9, "x", "X"⟩ "999" "t1").2 = VoteOutcome.saved false ∧
    lookupVote (cb_vote ⟨[⟨"s", 10, "C", "T", "", "d", "open"⟩],
              [⟨"s", 10, "cu", "C", "j1"⟩, ⟨"s", 1, "au", "A", "j2"⟩], []⟩
        "s" ⟨9, "x", "X"⟩ "999" "t1").1 "s" 9 = some "999" := by
  refine ⟨by decide, by decide, by decide⟩

/-- C1 amended: `cb_vote` performs no validation of `value` at all: on an
existing OPEN session, every value — in particular one outside the
twelve card tokens — is accepted (`saved` outcome) and upserted as the
voter's stored vote. -/
theorem invalid_value_accepted (st : Store) (sid : String) (u : User)
    (value now : String) (sess : SessionRow)
    (hs : get_session st sid = some sess) (hopen : sess.status = "open")
    (_hval : value ∉ VOTE_OPTIONS) :
    (∃ b, cb_vote st sid u value now = (set_vote st sid u value now,
        VoteOutcome.saved b)) ∧
    lookupVote (set_vote st sid u value now) sid u.id = some value := by
  constructor
  · unfold cb_vote
    rw [hs]
    simp [hopen]
  · exact lookupVote_set_vote st sid u value now

/-- Witness for the amended C1 at a concrete open session and the
non-token value "999". -/
theorem invalid_value_accepted_witness :
    (∃ b, cb_vote ⟨[⟨"s", 10, "C", "T", "", "d", "open"⟩], [], []⟩
          "s" ⟨9, "x", "X"⟩ "999" "t1"
        = (set_vote ⟨[⟨"s", 10, "C", "T", "", "d", "open"⟩], [], []⟩
            "s" ⟨9, "x", "X"⟩ "999" "t1", VoteOutcome.saved b)) ∧
    lookupVote (set_vote ⟨[⟨"s", 10, "C", "T", "", "d", "open"⟩], [], []⟩
        "s" ⟨9, "x", "X"⟩ "999" "t1") "s" 9 = some "999" :=
  invalid_value_accepted ⟨[⟨"s", 10, "C", "T", "", "d", "open"⟩], [], []⟩
    "s" ⟨9, "x", "X"⟩ "999" "t1" ⟨"s", 10, "C", "T", "", "d", "open"⟩
    (by decide) rfl (by decide)

/-! ## C2/C4: the auto-reveal trigger -/

/-- After a vote is saved, `compose_and_broadcast_results` always finds
the session and a non-empty vote list, so a report exists. -/
theorem compose_isSome_after_vote (st : Store) (sid : String) (u : User)
    (value now : String) (sess : SessionRow)
    (hs : get_session st sid = some sess) :
    (compose_and_broadcast_results (set_vote st sid u value now) sid).isSome = true := by
  unfold compose_and_broadcast_results
  rw [get_session_set_vote, hs]
  have hne := get_votes_set_vote_ne_nil st sid u value now
  simp only []
  rw [if_neg]
  · rfl
  · simp [List.isEmpty_iff, hne]

/-- Reduction of `cb_vote` on an existing OPEN session: the vote is saved
and the broadcast flag is exactly the size-comparison condition of
line 366 (non-empty member list, distinct voter count equal to member
row count). -/
theorem cb_vote_open_eq (st : Store) (sid : String) (u : User)
    (value now : String) (sess : SessionRow)
    (hs : get_session st sid = some sess) (hopen : sess.status = "open") :
    cb_vote st sid u value now = (set_vote st sid u value now,
      VoteOutcome.saved (!(get_members (set_vote st sid u value now) sid).isEmpty &&
        (((get_votes (set_vote st sid u value now) sid).map
            (fun v => v.user_id)).dedup.length
          == (get_members (set_vote st sid u value now) sid).length))) := by
  have hss := compose_isSome_after_vote st sid u value now sess hs
  simp only [cb_vote, hs]
  rw [if_neg (by simp [hopen])]
  rw [if_pos (by simp [hopen])]
  cases hc : (!(get_members (set_vote st sid u value now) sid).isEmpty &&
      (((get_votes (set_vote st sid u value now) sid).map
          (fun v => v.user_id)).dedup.length
        == (get_members (set_vote st sid u value now) sid).length))
  · rw [if_neg (by simp [hc])]
  · rw [if_pos (by simp [hc]), hss]

/-- C2 counterexample: concrete OPEN session whose only member is user 1;
the non-member user 2 votes.  The voter set `{2}` and member set `{1}`
have equal size but different elements, yet the auto-reveal broadcast
fires (`saved true`), so "no reveal occurs" is false. -/
theorem auto_reveal_size_only_counterexample :
    (cb_vote ⟨[⟨"s", 10, "C", "T", "", "d", "open"⟩],
              [⟨"s", 1, "au", "A", "j1"⟩], []⟩
        "s" ⟨2, "b", "B"⟩ "5" "t1").2 = VoteOutcome.saved true ∧
    ((get_votes (cb_vote ⟨[⟨"s", 10, "C", "T", "", "d", "open"⟩],
              [⟨"s", 1, "au", "A", "j1"⟩], []⟩
        "s" ⟨2, "b", "B"⟩ "5" "t1").1 "s").map (fun v => v.user_id)).dedup = [2] ∧
    ((get_members (cb_vote ⟨[⟨"s", 10, "C", "T", "", "d", "open"⟩],
              [⟨"s", 1, "au", "A", "j1"⟩], []⟩
        "s" ⟨2, "b", "B"⟩ "5" "t1").1 "s").map (fun m => m.user_id)) = [1] := by
  refine ⟨by decide, by decide, by decide⟩

/-- C2 amended: after every successful SubmitVote on an OPEN session, the
automatic reveal is invoked if and only if the member list is non-empty
and the NUMBER of distinct voter userIds equals the NUMBER of
membership rows — a size comparison only; set equality is not checked,
so a non-member's vote can stand in for a missing member's. -/
theorem auto_reveal_size_only (st : Store) (sid : String) (u : User)
    (value now : String) (sess : SessionRow)
    (hs : get_session st sid = some sess) (hopen : sess.status = "open") :
    (cb_vote st sid u value now).2 = VoteOutcome.saved true ↔
      (get_members st sid ≠ [] ∧
        ((get_votes (set_vote st sid u value now) sid).map
            (fun v => v.user_id)).dedup.length = (get_members st sid).length) := by
  rw [cb_vote_open_eq st sid u value now sess hs hopen]
  simp [List.isEmpty_iff, get_members_set_vote]

/-- Witness for the amended C2: concrete complete session (single member
who voted) where the condition and the broadcast agree. -/
theorem auto_reveal_size_only_witness :
    ((cb_vote ⟨[⟨"s", 10, "C", "T", "", "d", "open"⟩],
               [⟨"s", 1, "au", "A", "j1"⟩], []⟩
        "s" ⟨1, "a", "A"⟩ "5" "t1").2 = VoteOutcome.saved true ↔
      (get_members ⟨[⟨"s", 10, "C", "T", "", "d", "open"⟩],
                    [⟨"s", 1, "au", "A", "j1"⟩], []⟩ "s" ≠ [] ∧
        ((get_votes (set_vote ⟨[⟨"s", 10, "C", "T", "", "d", "open"⟩],
                    [⟨"s", 1, "au", "A", "j1"⟩], []⟩ "s" ⟨1, "a", "A"⟩ "5" "t1") "s").map
            (fun v => v.user_id)).dedup.length
          = (get_members ⟨[⟨"s", 10, "C", "T", "", "d", "open"⟩],
                          [⟨"s", 1, "au", "A", "j1"⟩], []⟩ "s").length)) :=
  auto_reveal_size_only ⟨[⟨"s", 10, "C", "T", "", "d", "open"⟩],
      [⟨"s", 1, "au", "A", "j1"⟩], []⟩ "s" ⟨1, "a", "A"⟩ "5" "t1"
    ⟨"s", 10, "C", "T", "", "d", "open"⟩ (by decide) rfl

/-- A stored vote puts the voter's id among the session's voter ids. -/
theorem mem_voterIds_of_lookupVote (st : Store) (sid : String) (uid : Nat)
    (w : String) (h : lookupVote st sid uid = some w) :
    uid ∈ (get_votes st sid).map (fun v => v.user_id) := by
  unfold lookupVote at h
  obtain ⟨v, hv, -⟩ := Option.map_eq_some'.mp h
  have hmem := List.mem_of_find?_eq_some hv
  have hp := List.find?_some hv
  simp only [Bool.and_eq_true, beq_iff_eq] at hp
  simp only [get_votes, List.mem_map, List.mem_filter]
  exact ⟨v, ⟨hmem, by simp [hp.1]⟩, hp.2⟩

/-- An overwriting re-vote by a user who already voted leaves the SET of
voter ids of the session unchanged. -/
theorem voterIds_toFinset_set_vote (st : Store) (sid : String) (u : User)
    (value now : String)
    (h : u.id ∈ (get_votes st sid).map (fun v => v.user_id)) :
    ((get_votes (set_vote st sid u value now) sid).map
        (fun v => v.user_id)).toFinset =
      ((get_votes st sid).map (fun v => v.user_id)).toFinset := by
  rw [get_votes_set_vote_self]
  ext x
  simp only [List.map_append, List.toFinset_append, Finset.mem_union,
    List.mem_toFinset, List.mem_map, List.mem_filter, List.map_cons,
    List.map_nil, List.mem_singleton, Bool.not_eq_true', beq_eq_false_iff_ne,
    ne_eq]
  constructor
  · rintro (⟨v, ⟨hv, hne⟩, rfl⟩ | rfl)
    · exact ⟨v, hv, rfl⟩
    · simpa using h
  · rintro ⟨v, hv, rfl⟩
    by_cases hvu : v.user_id = u.id
    · right
      exact hvu
    · left
      exact ⟨v, ⟨hv, hvu⟩, rfl⟩

/-- An overwriting re-vote preserves the number of distinct voter ids. -/
theorem dedup_length_set_vote (st : Store) (sid : String) (u : User)
    (value now : String)
    (h : u.id ∈ (get_votes st sid).map (fun v => v.user_id)) :
    ((get_votes (set_vote st sid u value now) sid).map
        (fun v => v.user_id)).dedup.length =
      ((get_votes st sid).map (fun v => v.user_id)).dedup.length := by
  rw [← List.card_toFinset, ← List.card_toFinset,
    voterIds_toFinset_set_vote st sid u value now h]

/-! ## C4: the auto-reveal is not idempotent -/

/-- C4 counterexample: concrete OPEN session whose only member (user 1)
votes, triggering the broadcast, then re-votes without changing the
voter set; the broadcast fires a second time, refuting "does not cause
the results to be broadcast again". -/
theorem auto_reveal_rebroadcast_counterexample :
    (cb_vote ⟨[⟨"s", 10, "C", "T", "", "d", "open"⟩],
              [⟨"s", 1, "au", "A", "j1"⟩], []⟩
        "s" ⟨1, "a", "A"⟩ "5" "t1").2 = VoteOutcome.saved true ∧
    (cb_vote (cb_vote ⟨[⟨"s", 10, "C", "T", "", "d", "open"⟩],
              [⟨"s", 1, "au", "A", "j1"⟩], []⟩
        "s" ⟨1, "a", "A"⟩ "5" "t1").1 "s" ⟨1, "a", "A"⟩ "8" "t2").2
      = VoteOutcome.saved true := by
  refine ⟨by decide, by decide⟩

/-- C4 amended: the auto-reveal has no memory of earlier broadcasts:
EVERY successful SubmitVote on an OPEN session re-runs the completeness
check, so an overwriting re-vote by a user who already voted — which
leaves the voter set unchanged — broadcasts the results again whenever
the size condition (already reached before the re-vote) holds. -/
theorem auto_reveal_rebroadcast (st : Store) (sid : String) (u : User)
    (value now w : String) (sess : SessionRow)
    (hs : get_session st sid = some sess) (hopen : sess.status = "open")
    (hvoted : lookupVote st sid u.id = some w)
    (hmem : get_members st sid ≠ [])
    (hcount : ((get_votes st sid).map (fun v => v.user_id)).dedup.length
        = (get_members st sid).length) :
    (cb_vote st sid u value now).2 = VoteOutcome.saved true := by
  rw [cb_vote_open_eq st sid u value now sess hs hopen]
  have h1 := mem_voterIds_of_lookupVote st sid u.id w hvoted
  have h2 := dedup_length_set_vote st sid u value now h1
  simp [List.isEmpty_iff, get_members_set_vote, h2, hcount, hmem]

/-- Witness for the amended C4: user 1, the only member of a concrete
session, has a stored vote "5"; re-voting "8" broadcasts again. -/
theorem auto_reveal_rebroadcast_witness :
    (cb_vote ⟨[⟨"s", 10, "C", "T", "", "d", "open"⟩],
              [⟨"s", 1, "au", "A", "j1"⟩], [⟨"s", 1, "5", "t1"⟩]⟩
        "s" ⟨1, "a", "A"⟩ "8" "t2").2 = VoteOutcome.saved true :=
  auto_reveal_rebroadcast ⟨[⟨"s", 10, "C", "T", "", "d", "open"⟩],
      [⟨"s", 1, "au", "A", "j1"⟩], [⟨"s", 1, "5", "t1"⟩]⟩
    "s" ⟨1, "a", "A"⟩ "8" "t2" "5" ⟨"s", 10, "C", "T", "", "d", "open"⟩
    (by decide) rfl (by decide) (by decide) (by decide)

/-! ## C3: voting does not create membership -/

/-- C3 counterexample: on a concrete OPEN session whose only member is
the creator, the non-member user 2 votes successfully, yet afterwards
the store holds no Membership row for ("s", 2) — the voter set is not a
subset of the member set. -/
theorem vote_no_membership_counterexample :
    (cb_vote ⟨[⟨"s", 10, "C", "T", "", "d", "open"⟩],
              [⟨"s", 10, "cu", "C", "j1"⟩], []⟩
        "s" ⟨2, "b", "B"⟩ "5" "t1").2 = VoteOutcome.saved true ∧
    lookupVote (cb_vote ⟨[⟨"s", 10, "C", "T", "", "d", "open"⟩],
              [⟨"s", 10, "cu", "C", "j1"⟩], []⟩
        "s" ⟨2, "b", "B"⟩ "5" "t1").1 "s" 2 = some "5" ∧
    memberExists (cb_vote ⟨[⟨"s", 10, "C", "T", "", "d", "open"⟩],
              [⟨"s", 10, "cu", "C", "j1"⟩], []⟩
        "s" ⟨2, "b", "B"⟩ "5" "t1").1 "s" 2 = false := by
  refine ⟨by decide, by decide, by decide⟩

/-- C3 amended: `cb_vote` never touches the membership table: after any
SubmitVote — successful or not — the membership rows are exactly the
ones from before, so a vote by a user without a membership record does
NOT insert one. -/
theorem vote_members_unchanged (st : Store) (sid : String) (u : User)
    (value now : String) :
    (cb_vote st sid u value now).1.members = st.members := by
  unfold cb_vote
  cases hs : get_session st sid with
  | none => rfl
  | some sess =>
    by_cases h : sess.status = "open"
    · simp only []
      rw [if_neg (by simp [h])]
      rfl
    · simp only []
      rw [if_pos (by simp [h])]

/-! ## C5: per-key uniqueness is preserved by every operation -/

/-- A list that is pairwise "not both satisfy `p`" holds at most one
element satisfying `p`. -/
theorem countP_le_one_of_pairwise {α : Type} (l : List α) (p : α → Bool)
    (R : α → α → Prop) (hR : l.Pairwise R)
    (h : ∀ a b, p a = true → p b = true → ¬ R a b) :
    l.countP p ≤ 1 := by
  induction l with
  | nil => simp
  | cons x xs ih =>
    rw [List.countP_cons]
    rcases List.pairwise_cons.mp hR with ⟨hx, hxs⟩
    by_cases hpx : p x = true
    · have h0 : xs.countP p = 0 := by
        rw [List.countP_eq_zero]
        intro b hb hpb
        exact h x b hpx hpb (hx b hb)
      simp [h0, hpx]
    · have := ih hxs
      simp [hpx]
      omega

/-- Operation `set_vote` preserves the uniqueness invariant. -/
theorem wf_set_vote (st : Store) (hwf : st.WF) (sid : String) (u : User)
    (value now : String) : (set_vote st sid u value now).WF := by
  obtain ⟨hs, hm, hv⟩ := hwf
  refine ⟨hs, hm, ?_⟩
  show ((st.votes.filter _) ++ _).Pairwise _
  rw [List.pairwise_append]
  refine ⟨hv.sublist (List.filter_sublist _), by simp, ?_⟩
  intro a ha b hb
  simp only [List.mem_filter, Bool.not_eq_true', Bool.and_eq_false_iff,
    beq_eq_false_iff_ne, ne_eq] at ha
  simp only [List.mem_singleton] at hb
  subst hb
  rcases ha.2 with h1 | h2
  · exact Or.inl h1
  · exact Or.inr h2

/-- Operation `add_member` preserves the uniqueness invariant. -/
theorem wf_add_member (st : Store) (hwf : st.WF) (sid : String) (u : User)
    (now : String) : (add_member st sid u now).WF := by
  obtain ⟨hs, hm, hv⟩ := hwf
  unfold add_member
  by_cases h : st.members.any (fun m => m.session_id == sid && m.user_id == u.id) = true
  · rw [if_pos h]
    exact ⟨hs, hm, hv⟩
  · rw [if_neg h]
    refine ⟨hs, ?_, hv⟩
    rw [List.pairwise_append]
    refine ⟨hm, by simp, ?_⟩
    intro a ha b hb
    simp only [List.mem_singleton] at hb
    subst hb
    simp only [List.any_eq_true, Bool.and_eq_true, beq_iff_eq, not_exists,
      not_and] at h
    by_cases hsid : a.session_id = sid
    · right
      intro huid
      exact h a ha hsid huid
    · left
      exact hsid

/-- Operation `create_session` preserves the uniqueness invariant. -/
theorem wf_create_session (st : Store) (hwf : st.WF) (sid : String) (c : User)
    (title description now : String) :
    (create_session st sid c title description now).WF := by
  obtain ⟨hs, hm, hv⟩ := hwf
  unfold create_session
  by_cases h : st.sessions.any (fun s => s.id == sid) = true
  · rw [if_pos h]
    exact ⟨hs, hm, hv⟩
  · rw [if_neg h]
    refine ⟨?_, hm, hv⟩
    rw [List.pairwise_append]
    refine ⟨hs, by simp, ?_⟩
    intro a ha b hb
    simp only [List.mem_singleton] at hb
    subst hb
    simp only [List.any_eq_true, beq_iff_eq, not_exists, not_and] at h
    exact fun heq => (h a ha) heq

/-- Operation `clear_votes` preserves the uniqueness invariant. -/
theorem wf_clear_votes (st : Store) (hwf : st.WF) (sid : String) :
    (clear_votes st sid).WF := by
  obtain ⟨hs, hm, hv⟩ := hwf
  exact ⟨hs, hm, hv.sublist (List.filter_sublist _)⟩

/-- Operation `set_session_status` preserves the uniqueness invariant. -/
theorem wf_set_session_status (st : Store) (hwf : st.WF) (sid status : String) :
    (set_session_status st sid status).WF := by
  obtain ⟨hs, hm, hv⟩ := hwf
  refine ⟨?_, hm, hv⟩
  show (st.sessions.map _).Pairwise _
  rw [List.pairwise_map]
  have hid : ∀ s : SessionRow,
      (if s.id == sid then { s with status := status } else s).id = s.id := by
    intro s
    by_cases h : s.id = sid <;> simp [h]
  exact hs.imp (fun {a b} hab => by rw [hid a, hid b]; exact hab)

/-- Handler `cb_reveal` never mutates the store. -/
theorem cb_reveal_fst (st : Store) (sid : String) (u : User) :
    (cb_reveal st sid u).1 = st := by
  unfold cb_reveal
  cases get_session st sid with
  | none => rfl
  | some sess =>
    simp only []
    by_cases h : u.id = sess.creator_id
    · rw [if_neg (by simp [h])]
      cases compose_and_broadcast_results st sid <;> rfl
    · rw [if_pos (by simp [h])]

/-- The per-key row-count bound that `Store.WF` expresses. -/
theorem store_countP_bounds (st : Store) (hwf : st.WF) (sid : String) (uid : Nat) :
    st.votes.countP (fun v => v.session_id == sid && v.user_id == uid) ≤ 1 ∧
    st.members.countP (fun m => m.session_id == sid && m.user_id == uid) ≤ 1 := by
  obtain ⟨-, hm, hv⟩ := hwf
  constructor
  · apply countP_le_one_of_pairwise _ _ _ hv
    intro a b hpa hpb hR
    simp only [Bool.and_eq_true, beq_iff_eq] at hpa hpb
    rcases hR with h | h
    · exact h (hpa.1.trans hpb.1.symm)
    · exact h (hpa.2.trans hpb.2.symm)
  · apply countP_le_one_of_pairwise _ _ _ hm
    intro a b hpa hpb hR
    simp only [Bool.and_eq_true, beq_iff_eq] at hpa hpb
    rcases hR with h | h
    · exact h (hpa.1.trans hpb.1.symm)
    · exact h (hpa.2.trans hpb.2.symm)

/-- Every operation maps a well-formed store to a well-formed store. -/
theorem step_preserves_wf (st : Store) (hwf : st.WF) (op : Op) :
    (step st op).WF := by
  cases op with
  | newSession sid c title now =>
    exact wf_add_member _ (wf_create_session st hwf sid c title "" now) sid c now
  | join sid u now =>
    show (cb_join st sid u now).1.WF
    unfold cb_join
    cases get_session st sid with
    | none => exact hwf
    | some sess =>
      simp only []
      by_cases h : sess.status = "open"
      · rw [if_neg (by simp [h])]
        exact wf_add_member st hwf sid u now
      · rw [if_pos (by simp [h])]
        exact hwf
  | vote sid u value now =>
    show (cb_vote st sid u value now).1.WF
    unfold cb_vote
    cases get_session st sid with
    | none => exact hwf
    | some sess =>
      simp only []
      by_cases h : sess.status = "open"
      · rw [if_neg (by simp [h])]
        exact wf_set_vote st hwf sid u value now
      · rw [if_pos (by simp [h])]
        exact hwf
  | reveal sid u =>
    show (cb_reveal st sid u).1.WF
    rw [cb_reveal_fst]
    exact hwf
  | revote sid u =>
    show (cb_revote st sid u).1.WF
    unfold cb_revote
    cases get_session st sid with
    | none => exact hwf
    | some sess =>
      simp only []
      by_cases h : u.id = sess.creator_id
      · rw [if_neg (by simp [h])]
        exact wf_clear_votes st hwf sid
      · rw [if_pos (by simp [h])]
        exact hwf
  | close sid u =>
    show (cmd_close_session st sid u).1.WF
    unfold cmd_close_session
    cases get_session st sid with
    | none => exact hwf
    | some sess =>
      simp only []
      by_cases h : u.id = sess.creator_id
      · rw [if_neg (by simp [h])]
        exact wf_set_session_status st hwf sid "closed"
      · rw [if_pos (by simp [h])]
        exact hwf

/-- C5: Every operation preserves the per-key uniqueness invariant — at
most one Vote row and at most one Membership row per (session, user) —
an accepted SubmitVote stores exactly the submitted value for its key
(last-write-wins, no second record), and re-joining when a membership
row exists is a no-op (idempotent, no duplicate, no error). -/
theorem operations_preserve_uniqueness (st : Store) (hwf : st.WF) :
    (∀ op : Op, (step st op).WF ∧
      ∀ sid uid,
        (step st op).votes.countP
            (fun v => v.session_id == sid && v.user_id == uid) ≤ 1 ∧
        (step st op).members.countP
            (fun m => m.session_id == sid && m.user_id == uid) ≤ 1) ∧
    (∀ sid u value now b,
      (cb_vote st sid u value now).2 = VoteOutcome.saved b →
      lookupVote (cb_vote st sid u value now).1 sid u.id = some value) ∧
    (∀ sid u now, memberExists st sid u.id = true → add_member st sid u now = st) := by
  refine ⟨?_, ?_, ?_⟩
  · intro op
    have hwf' := step_preserves_wf st hwf op
    exact ⟨hwf', fun sid uid => store_countP_bounds _ hwf' sid uid⟩
  · intro sid u value now b hsaved
    unfold cb_vote at hsaved ⊢
    cases hg : get_session st sid with
    | none =>
      rw [hg] at hsaved
      simp at hsaved
    | some sess =>
      rw [hg] at hsaved
      simp only [] at hsaved
      simp only []
      by_cases hop : sess.status = "open"
      · rw [if_neg (by simp [hop])]
        exact lookupVote_set_vote st sid u value now
      · simp [hop] at hsaved
  · intro sid u now hex
    unfold memberExists at hex
    unfold add_member
    rw [if_pos hex]

/-- Witness for C5: a concrete well-formed store (one open session, one
member, one vote) stays well-formed across a re-vote step. -/
theorem operations_preserve_uniqueness_witness :
    (step ⟨[⟨"s", 10, "C", "T", "", "d", "open"⟩], [⟨"s", 1, "au", "A", "j1"⟩],
        [⟨"s", 1, "5", "t1"⟩]⟩ (Op.vote "s" ⟨1, "a", "A"⟩ "8" "t2")).WF :=
  ((operations_preserve_uniqueness
      ⟨[⟨"s", 10, "C", "T", "", "d", "open"⟩], [⟨"s", 1, "au", "A", "j1"⟩],
        [⟨"s", 1, "5", "t1"⟩]⟩ (by decide)).1
    (Op.vote "s" ⟨1, "a", "A"⟩ "8" "t2")).1

/-! ## C6: numeric statistics of the report -/

/-- The numeric reading of each card token as the spec states it: `?` has
none, `½` is 0.5, every other token parses to its literal value. -/
def tokenValue : String → Option Rat
  | "?" => none
  | "½" => some (1/2)
  | "0" => some 0
  | "1" => some 1
  | "2" => some 2
  | "3" => some 3
  | "5" => some 5
  | "8" => some 8
  | "13" => some 13
  | "20" => some 20
  | "40" => some 40
  | "100" => some 100
  | _ => none

/-- On every card token the handler's parse step agrees with the spec's
token table. -/
theorem parse_step_eq_tokenValue (x : String) (hx : x ∈ VOTE_OPTIONS) :
    (if x == "?" then none else if x == "½" then some ((1 : Rat)/2)
     else pyfloat? x) = tokenValue x := by
  fin_cases hx <;> rfl

/-- On card-token inputs the numeric sequence of the handler is exactly
the spec's token-table extraction. -/
theorem numericValues_eq_tokenValue (vals : List String)
    (h : ∀ v ∈ vals, v ∈ VOTE_OPTIONS) :
    numericValues vals = vals.filterMap tokenValue := by
  unfold numericValues
  apply List.filterMap_congr
  intro x hx
  exact parse_step_eq_tokenValue x (h x hx)

/-- C6: The numeric statistics parse every vote value except `?` as a
number (`½` as 0.5, every other token literally); with a non-empty
numeric sequence the report carries the mean rounded to 2 decimal
places (`[½, 1, 2]` displays as 1.17) and the median in the standard
definition (`[1,2,3]` gives 2, `[1,2,3,5]` gives 2.5); when all votes
are `?` both statistics are omitted. -/
theorem report_numeric_stats (members : List MemberRow) (votes : List VoteRow)
    (h : ∀ v ∈ votes, v.value ∈ VOTE_OPTIONS) :
    (numericValues (votes.map (fun v => v.value))
        = (votes.map (fun v => v.value)).filterMap tokenValue) ∧
    ((votes.map (fun v => v.value)).filterMap tokenValue ≠ [] →
      (compose_results members votes).mean
          = some (roundTo2 (listMean
              ((votes.map (fun v => v.value)).filterMap tokenValue))) ∧
      (compose_results members votes).median
          = some (listMedian
              ((votes.map (fun v => v.value)).filterMap tokenValue))) ∧
    ((∀ v ∈ votes, v.value = "?") →
      (compose_results members votes).mean = none ∧
      (compose_results members votes).median = none) ∧
    roundTo2 (listMean [(1 : Rat)/2, 1, 2]) = 117/100 ∧
    listMedian [1, 2, 3] = 2 ∧
    listMedian [1, 2, 3, 5] = 5/2 := by
  have h1 : numericValues (votes.map (fun v => v.value))
      = (votes.map (fun v => v.value)).filterMap tokenValue := by
    apply numericValues_eq_tokenValue
    intro x hx
    obtain ⟨v, hv, rfl⟩ := List.mem_map.mp hx
    exact h v hv
  refine ⟨h1, ?_, ?_, ?_, ?_, ?_⟩
  · intro hne
    have hemp : (numericValues (votes.map (fun v => v.value))).isEmpty = false := by
      rw [h1]
      simpa [List.isEmpty_iff] using hne
    constructor
    · show (if (numericValues (votes.map (fun v => v.value))).isEmpty then none
            else some (roundTo2 (listMean (numericValues (votes.map (fun v => v.value))))))
          = _
      rw [hemp, h1]
      simp
    · show (if (numericValues (votes.map (fun v => v.value))).isEmpty then none
            else some (listMedian (numericValues (votes.map (fun v => v.value)))))
          = _
      rw [hemp, h1]
      simp
  · intro hq
    have hnil : numericValues (votes.map (fun v => v.value)) = [] := by
      rw [h1, List.filterMap_eq_nil_iff]
      intro x hx
      obtain ⟨v, hv, rfl⟩ := List.mem_map.mp hx
      rw [hq v hv]
      rfl
    constructor
    · show (if (numericValues (votes.map (fun v => v.value))).isEmpty then none
            else some (roundTo2 (listMean (numericValues (votes.map (fun v => v.value))))))
          = none
      rw [hnil]
      rfl
    · show (if (numericValues (votes.map (fun v => v.value))).isEmpty then none
            else some (listMedian (numericValues (votes.map (fun v => v.value)))))
          = none
      rw [hnil]
      rfl
  · norm_num [roundTo2, roundHalfEven, listMean, List.sum]
  · norm_num [listMedian, sortAsc, insertAsc]
  · norm_num [listMedian, sortAsc, insertAsc]

/-- Witness for C6: the spec's own example, votes `[½, 1, 2]`: the
report's mean line shows 1.17. -/
theorem report_numeric_stats_witness :
    (compose_results ([] : List MemberRow)
        [⟨"s", 1, "½", "t1"⟩, ⟨"s", 2, "1", "t2"⟩, ⟨"s", 3, "2", "t3"⟩]).mean
      = some (117/100) := by
  have h := report_numeric_stats ([] : List MemberRow)
      [⟨"s", 1, "½", "t1"⟩, ⟨"s", 2, "1", "t2"⟩, ⟨"s", 3, "2", "t3"⟩] (by decide)
  have h2 := (h.2.1 (by decide)).1
  have h3 : (([⟨"s", 1, "½", "t1"⟩, ⟨"s", 2, "1", "t2"⟩,
      ⟨"s", 3, "2", "t3"⟩] : List VoteRow).map (fun v => v.value)).filterMap tokenValue
      = [(1 : Rat)/2, 1, 2] := rfl
  rw [h2, h3]
  norm_num [roundTo2, roundHalfEven, listMean, List.sum]

/-! ## C7: histogram, total and non-voter roster -/

/-- The emitted histogram tokens are exactly the options present among
the values, kept in the option-list order. -/
theorem map_fst_filterMap_count (opts vals : List String) :
    ((opts.filterMap (fun opt =>
        if 0 < vals.count opt then some (opt, vals.count opt) else none)).map
      Prod.fst)
      = opts.filter (fun t => vals.count t != 0) := by
  induction opts with
  | nil => rfl
  | cons o os ih =>
    by_cases h : 0 < vals.count o
    · have hne : (vals.count o != 0) = true := by simpa using Nat.pos_iff_ne_zero.mp h
      simp only [List.filterMap_cons, if_pos h, List.map_cons, List.filter_cons, hne,
        if_true]
      rw [ih]
    · have hz : vals.count o = 0 := Nat.eq_zero_of_not_pos h
      have hne : (vals.count o != 0) = false := by simp [hz]
      simp only [List.filterMap_cons, if_neg h, List.filter_cons, hne]
      rw [ih]
      rfl

/-- Every histogram entry carries the exact, positive count of its token. -/
theorem histogram_entry_counts (vals : List String) (p : String × Nat)
    (hp : p ∈ histogramLines vals) :
    p.2 = vals.count p.1 ∧ 0 < p.2 := by
  unfold histogramLines at hp
  simp only [List.mem_filterMap] at hp
  obtain ⟨opt, -, hopt⟩ := hp
  by_cases h : 0 < vals.count opt
  · rw [if_pos h] at hopt
    obtain rfl := Option.some.inj hopt
    exact ⟨rfl, h⟩
  · rw [if_neg h] at hopt
    cases hopt

/-- Membership in the non-voter roster. -/
theorem not_voted_mem (members : List MemberRow) (votes : List VoteRow)
    (m : MemberRow) :
    m ∈ not_voted members votes ↔
      m ∈ members ∧ ∀ v ∈ votes, v.user_id ≠ m.user_id := by
  unfold not_voted
  simp only [List.mem_filter, Bool.not_eq_true']
  constructor
  · rintro ⟨hm, hc⟩
    refine ⟨hm, ?_⟩
    intro v hv heq
    have hmm : m.user_id ∈ votes.map (fun v => v.user_id) :=
      List.mem_map.mpr ⟨v, hv, heq⟩
    rw [← List.elem_iff] at hmm
    have hcc : (votes.map (fun v => v.user_id)).contains m.user_id = true := hmm
    rw [hc] at hcc
    cases hcc
  · rintro ⟨hm, hno⟩
    refine ⟨hm, ?_⟩
    by_contra hc
    rw [Bool.not_eq_false] at hc
    have hcc : List.elem m.user_id (votes.map (fun v => v.user_id)) = true := hc
    rw [List.elem_iff] at hcc
    obtain ⟨v, hv, heq⟩ := List.mem_map.mp hcc
    exact hno v hv heq

/-- C7: The report's histogram lists exactly the card tokens that
received at least one vote (zero-count tokens omitted) in the fixed
`VOTE_OPTIONS` display order, each entry carrying its exact positive
count; the total equals the number of vote records (`?` votes
included); and the non-voter roster is exactly the members without a
vote, as a sublist of the member list, i.e. in original join order. -/
theorem report_histogram_total_roster (members : List MemberRow)
    (votes : List VoteRow) :
    ((compose_results members votes).histogram.map Prod.fst
        = VOTE_OPTIONS.filter
            (fun t => (votes.map (fun v => v.value)).count t != 0)) ∧
    (∀ p ∈ (compose_results members votes).histogram,
        p.2 = (votes.map (fun v => v.value)).count p.1 ∧ 0 < p.2) ∧
    (compose_results members votes).total = votes.length ∧
    (∀ m, m ∈ (compose_results members votes).non_voters ↔
        m ∈ members ∧ ∀ v ∈ votes, v.user_id ≠ m.user_id) ∧
    (compose_results members votes).non_voters.Sublist members := by
  have hh : (compose_results members votes).histogram
      = histogramLines (votes.map (fun v => v.value)) := rfl
  have hnv : (compose_results members votes).non_voters
      = not_voted members votes := rfl
  refine ⟨?_, ?_, rfl, ?_, ?_⟩
  · rw [hh]
    exact map_fst_filterMap_count VOTE_OPTIONS (votes.map (fun v => v.value))
  · rw [hh]
    intro p hp
    exact histogram_entry_counts (votes.map (fun v => v.value)) p hp
  · intro m
    rw [hnv]
    exact not_voted_mem members votes m
  · rw [hnv]
    unfold not_voted
    exact List.filter_sublist members
